import Mathlib

/-!
Verification of the podlet-server development orchestrator against its
natural-language specification.

The development is a shallow embedding of the two core source files:

* `src/plugins/import-element.js` — the server-side custom-element registry
  (`CustomElementRegistry`) and the `importElement` fastify decorator that
  bundles, imports and registers UI components on demand.
* `src/api/dev.js` — the dev-server driver: `createBuildContext` (esbuild
  incremental session over the optional content/fallback/scripts/lazy entry
  points), the client/server file watchers (`clientFileChange`,
  `serverFileChange`), `DevServer.restart`, and the content/fallback route
  handlers with their render-mode selection.

External collaborators (the path resolver, esbuild, `require.resolve`, the
dynamic `import()`, the filesystem) are modelled as explicit environment
records whose fields record the outcome of each external call; the embedded
functions then follow the source's control flow over those outcomes.
-/

/-! ## Component registry (src/plugins/import-element.js, lines 15-41) -/

/-- A component constructor as seen by the registry: an identity plus the
static `observedAttributes` list the source copies into the registry entry. -/
structure Ctor where
  id : Nat
  observedAttributes : List String
deriving DecidableEq, Repr

/-- A registry entry: `{ ctor, observedAttributes: ctor.observedAttributes ?? [] }`. -/
structure RegEntry where
  ctor : Ctor
  observedAttributes : List String
deriving DecidableEq, Repr

/-- The `__definitions` map: component name to registry entry, modelled as an
association list with JavaScript `Map` set/get semantics. -/
def Registry := List (String × RegEntry)

instance : DecidableEq Registry := by
  unfold Registry
  infer_instance

/-- JavaScript `Map.prototype.get`: first binding for the key, if any. -/
def rget : Registry → String → Option RegEntry
  | [], _ => none
  | (k, v) :: rest, key => if k = key then some v else rget rest key

/-- JavaScript `Map.prototype.set`: replace the existing binding in place,
otherwise append a new one. -/
def rset : Registry → String → RegEntry → Registry
  | [], key, v => [(key, v)]
  | (k, w) :: rest, key, v =>
    if k = key then (key, v) :: rest else (k, w) :: rset rest key v

/-- Errors that the embedded code can raise (JavaScript `throw`). -/
inductive Err
  | invalidPath (path : String)
  | resolveFailed (path : String)
  | bundleFailed
  | moduleNotFound (outfile : String)
  | importFailed
  | defineDuplicate (name : String)
deriving DecidableEq, Repr

namespace CustomElementRegistry

/-- `CustomElementRegistry.define(name, ctor)` from import-element.js:
returns silently when `name` or `ctor` is falsy (name `""` / ctor absent);
in non-development mode throws when the name is already defined, naming the
conflicting name; otherwise stores `{ctor, observedAttributes}`. -/
def define (development : Bool) (reg : Registry) (name : String)
    (ctor : Option Ctor) : Except Err Registry :=
  match ctor with
  | none => .ok reg
  | some c =>
    if name = "" then .ok reg
    else if development = false ∧ (rget reg name).isSome then
      .error (.defineDuplicate name)
    else .ok (rset reg name { ctor := c, observedAttributes := c.observedAttributes })

/-- `CustomElementRegistry.get(name)`: the stored constructor, if any. -/
def get (reg : Registry) (name : String) : Option Ctor :=
  (rget reg name).map (fun e => e.ctor)

end CustomElementRegistry

/-! ## Name derivation (`parse(path).name` in importElement)

`importElement` derives the component name with node's `path.parse`:
the basename of the path with its extension stripped, where a leading-dot
filename with no further dot (e.g. `.bashrc`) keeps the dot and has no
extension. -/

/-- Split a character list at a separator character, keeping empty
segments, as `String.splitOn` with a one-character separator does. -/
def splitOnChar (c : Char) : List Char → List (List Char)
  | [] => [[]]
  | a :: rest =>
    match splitOnChar c rest with
    | [] => if a = c then [[], []] else [[a]]
    | h :: t => if a = c then [] :: h :: t else (a :: h) :: t

/-- Rejoin dot-separated segments. -/
def joinDots : List (List Char) → List Char
  | [] => []
  | [x] => x
  | x :: rest => x ++ '.' :: joinDots rest

/-- Basename of a slash-separated path: the last non-empty segment. -/
def basename (p : String) : String :=
  match ((splitOnChar '/' p.data).filter (fun s => s ≠ [])).getLast? with
  | some b => ⟨b⟩
  | none => ""

/-- Strip the extension (text from the last dot, when that dot is not the
leading character) from a basename. -/
def stripExt (b : String) : String :=
  match splitOnChar '.' b.data with
  | [] => b
  | [_] => b
  | [] :: [_] => b
  | parts => ⟨joinDots parts.dropLast⟩

/-- `parse(path).name` as used by importElement. -/
def parseName (p : String) : String :=
  stripExt (basename p)

/-! ## importElement (src/plugins/import-element.js, lines 88-169) -/

deriving instance DecidableEq for Except

/-- Outcomes of the external calls a single `importElement` invocation makes:
`require.resolve`, `stat` on the SSR outfile, `esbuild.build`, and the
evaluation of the dynamically imported module (whose default export may be
absent). -/
structure ImportEnv where
  resolveOk : Bool
  resolvedPath : String
  outfileExists : Bool
  bundleOk : Bool
  importEval : Except Unit (Option Ctor)
deriving DecidableEq, Repr

/-- The externally observable work steps of one `importElement` call, in
program order: module resolution, the `stat` existence probe, the esbuild
bundling invocation, and the dynamic import. -/
inductive Act
  | resolveStep
  | statStep
  | bundleStep
  | importStep
deriving DecidableEq, Repr

/-- Result of one `importElement` call: the registry afterwards, the external
work performed, and either the value the function returned (the source always
returns `undefined`, i.e. `none`) or the error it threw. -/
structure ImportOutcome where
  registry : Registry
  trace : List Act
  result : Except Err (Option Ctor)
deriving DecidableEq

/-- `importElement(path)` from import-element.js. Control flow follows the
source: derive the name (throw on an unusable one); in non-development mode
return immediately when `appName-name` is already registered; resolve the
source path (failure is logged, and rethrown only in non-development mode);
probe the outfile with `stat`; invoke esbuild when in development mode or the
outfile is absent, with failures logged and swallowed in both modes; import
the bundle (failures logged, rethrown only in non-development mode, leaving
`Element` undefined in development); finally `customElements.define` the
result (failures logged, rethrown only in non-development mode). A bundle of
a file esbuild failed to produce — the outfile neither pre-existed nor was
written — makes the subsequent import fail with a module-not-found error. -/
def importElement (development : Bool) (appName : String) (env : ImportEnv)
    (path : String) (reg : Registry) : ImportOutcome :=
  let name := parseName path
  if name = "" ∨ name = "." then
    { registry := reg, trace := [], result := .error (.invalidPath path) }
  else
    let outfile := "dist/server/" ++ name ++ ".js"
    let key := appName ++ "-" ++ name
    if development = false ∧ (rget reg key).isSome then
      { registry := reg, trace := [], result := .ok none }
    else if env.resolveOk = false ∧ development = false then
      { registry := reg, trace := [Act.resolveStep], result := .error (.resolveFailed path) }
    else
      let bundleInvoked := development = true ∨ env.outfileExists = false
      let trace := [Act.resolveStep, Act.statStep]
        ++ (if bundleInvoked then [Act.bundleStep] else []) ++ [Act.importStep]
      let outfilePresent := env.outfileExists = true ∨ (bundleInvoked ∧ env.bundleOk = true)
      let imported : Except Err (Option Ctor) :=
        if outfilePresent then
          match env.importEval with
          | .error _ => .error .importFailed
          | .ok c => .ok c
        else .error (.moduleNotFound outfile)
      match imported with
      | .error e =>
        if development then
          { registry := reg, trace := trace, result := .ok none }
        else
          { registry := reg, trace := trace, result := .error e }
      | .ok element =>
        match CustomElementRegistry.define development reg key element with
        | .error e =>
          if development then
            { registry := reg, trace := trace, result := .ok none }
          else
            { registry := reg, trace := trace, result := .error e }
        | .ok reg2 =>
          { registry := reg2, trace := trace, result := .ok none }

/-! ## Path resolution and the client build context (src/api/dev.js) -/

/-- A path-resolver result (`resolve(logicalName) -> {path, exists}`); the
source field `exists` is rendered `fileExists`. -/
structure Resolution where
  path : String
  fileExists : Bool
deriving DecidableEq, Repr

/-- The resolver outcomes for the four logical entry points that
`createBuildContext` queries, reflecting the state of the disk at the moment
the context is created. -/
structure Disk where
  content : Resolution
  fallback : Resolution
  scripts : Resolution
  lazy : Resolution
deriving DecidableEq, Repr

/-- The entry-point list `createBuildContext` assembles: the paths of
content, fallback, scripts and lazy, in that order, each pushed only when its
resolution reports the file exists. -/
def entryPointsOf (d : Disk) : List String :=
  (if d.content.fileExists then [d.content.path] else [])
    ++ (if d.fallback.fileExists then [d.fallback.path] else [])
    ++ (if d.scripts.fileExists then [d.scripts.path] else [])
    ++ (if d.lazy.fileExists then [d.lazy.path] else [])

/-- The esbuild incremental session opened by `createBuildContext`: its
entry-point list and the fixed port of the reload-signalling serve endpoint. -/
structure BuildContext where
  entryPoints : List String
  servePort : Nat
deriving DecidableEq, Repr

/-- `createBuildContext()` from dev.js: re-resolve the four logical entry
points against the current disk, keep those that exist, open the esbuild
context over that list and serve the reload endpoint on port 6935. -/
def createBuildContext (d : Disk) : BuildContext :=
  { entryPoints := entryPointsOf d, servePort := 6935 }

/-! ## Client-scope watch handler (src/api/dev.js, clientFileChange) -/

/-- The build-context operations a client-scope watch event can perform. -/
inductive CAct
  | rebuildCtx
  | disposeCtx
  | createCtx
deriving DecidableEq, Repr

/-- The handler `clientFileChange` installs for change/add/unlink events:
try `buildContext.rebuild()`; when that rejects, dispose the failed context
and replace it with `createBuildContext()` run against the current disk.
`rebuildOk` is the outcome of the rebuild attempt; the returned pair is the
build context afterwards and the operations performed, in order. -/
def clientFileChange (rebuildOk : Bool) (d : Disk) (ctx : BuildContext) :
    BuildContext × List CAct :=
  if rebuildOk then (ctx, [CAct.rebuildCtx])
  else (createBuildContext d, [CAct.rebuildCtx, CAct.disposeCtx, CAct.createCtx])

/-! ## Server restart (src/api/dev.js, DevServer.restart / serverFileChange) -/

/-- Observable events of a server restart sequence: the new instance's
`setup()` starting and resolving, the old instance's `close()` starting and
resolving, the `local.reload()` call, and the new instance's `listen`
call with its target port. -/
inductive REv
  | setupStart
  | closeStart
  | setupDone
  | closeDone
  | reloadCall
  | listenCall (port : Nat)
deriving DecidableEq, Repr

/-- `DevServer.restart()`:
`Promise.all([this.setup(), this.app.close()])` starts setup and close
together; they resolve in either order (`setupFirst` picks the
interleaving); only after both have resolved is `listen` invoked on the
configured port. -/
def restartTrace (setupFirst : Bool) (port : Nat) : List REv :=
  [REv.setupStart, REv.closeStart]
    ++ (if setupFirst then [REv.setupDone, REv.closeDone] else [REv.closeDone, REv.setupDone])
    ++ [REv.listenCall port]

/-- The dev server's externally visible listening state. -/
structure ServerState where
  boundPort : Option Nat
deriving DecidableEq, Repr

/-- The handler `serverFileChange` installs for change/add/unlink events:
`await local.reload()` then `await devServer.restart()`; on any error the
build context is disposed and the server state is left as it was. `ok`
records whether the reload+restart sequence ran to completion (with the
issued `listen` succeeding on the freed port); `setupFirst` picks the
interleaving inside `restart`. -/
def serverFileChange (ok : Bool) (setupFirst : Bool) (port : Nat)
    (st : ServerState) : ServerState × List REv :=
  if ok then ({ boundPort := some port }, REv.reloadCall :: restartTrace setupFirst port)
  else (st, [REv.reloadCall])

/-! ## Rendering pipeline (content and fallback route handlers) -/

/-- The configured `app.mode` value (`RenderMode`). -/
inductive Mode
  | ssrOnly
  | csrOnly
  | hydrate
deriving DecidableEq, Repr

/-- The body markup a route handler produces, tagged by which rendering
decorator built it: `f.ssr(route, template)` (server-rendered template),
`f.csr(route, tag)` (raw custom-element tag rendered client-side), or
`f.hydrate(route, template)` (server-rendered template prepared for
client-side re-activation). -/
inductive Markup
  | ssr (route : String) (template : String)
  | csr (route : String) (tag : String)
  | hydrate (route : String) (tag : String)
deriving DecidableEq, Repr

/-- Collapse every run of consecutive slashes to a single slash, as the
source's `replace` of one-or-more slashes does. -/
def collapseSlashes (s : String) : String :=
  (s.toList.foldl
    (fun (acc : String × Bool) c =>
      if c = '/' then (if acc.2 then acc else (acc.1.push c, true))
      else (acc.1.push c, false))
    ("", false)).1

/-- `joinURLPathSegments(...segments)`: join with `/` and collapse repeats. -/
def joinURLPathSegments (segments : List String) : String :=
  collapseSlashes (String.intercalate "/" segments)

/-- The module path of the hydration bootstrap script the handlers reference
through `f.script` when the mode is hydrate. -/
def hydrateSupportPath (prefixPath : String) : String :=
  joinURLPathSegments
    [prefixPath, "/_/dynamic/modules/@lit-labs/ssr-client/lit-element-hydrate-support.js"]

/-- A route handler's rendered response: the optional hydration bootstrap
script reference prepended to the body (`none` models the empty string the
source uses outside hydrate mode), and the body markup. The response body is
the concatenation of the two. -/
structure Rendered where
  hydrateSupport : Option String
  markup : Markup
deriving DecidableEq, Repr

/-- The content route handler's rendering selection (dev.js): hydrate
support script iff the mode is hydrate; then
`if (mode === "ssr-only") ssr else if (mode === "csr-only") csr else hydrate`,
applied to the server-rendered template and the raw custom-element tag. -/
def contentRendered (prefixPath : String) (mode : Mode) (template tag : String) :
    Rendered :=
  { hydrateSupport := if mode = Mode.hydrate then some (hydrateSupportPath prefixPath) else none
    markup :=
      if mode = Mode.ssrOnly then Markup.ssr "content" template
      else if mode = Mode.csrOnly then Markup.csr "content" tag
      else Markup.hydrate "content" template }

/-- The fallback route handler's rendering selection (dev.js): hydrate
support script iff the mode is hydrate; then — exactly as the source is
written —
`if (mode !== "ssr-only") ssr else if (mode === "csr-only") csr else hydrate`. -/
def fallbackRendered (prefixPath : String) (mode : Mode) (template tag : String) :
    Rendered :=
  { hydrateSupport := if mode = Mode.hydrate then some (hydrateSupportPath prefixPath) else none
    markup :=
      if mode ≠ Mode.ssrOnly then Markup.ssr "fallback" template
      else if mode = Mode.csrOnly then Markup.csr "fallback" tag
      else Markup.hydrate "fallback" template }

/-- Modelled from the spec: the total, order-independent render-mode table of
spec section 4.3 — `ssr-only` yields the server-rendered template only,
`csr-only` the raw custom-element tag rendered client-side, `hydrate` the
server-rendered template prepared for re-activation — for a given route. -/
def specTableMarkup (route : String) (mode : Mode) (template tag : String) : Markup :=
  match mode with
  | Mode.ssrOnly => Markup.ssr route template
  | Mode.csrOnly => Markup.csr route tag
  | Mode.hydrate => Markup.hydrate route template

/-! ## Helper lemmas -/

/-- After a `Map.set`, `Map.get` of the same key sees the new entry. -/
theorem rget_rset_self (reg : Registry) (k : String) (v : RegEntry) :
    rget (rset reg k v) k = some v := by
  induction reg with
  | nil => simp [rset, rget]
  | cons hd tl ih =>
    obtain ⟨k0, v0⟩ := hd
    by_cases hk : k0 = k
    · simp [rset, rget, hk]
    · simp [rset, rget, hk, ih]

/-- The external-work trace of `importElement` once the invalid-name throw,
the non-development fast path and the non-development resolve throw are all
ruled out: resolution, the stat probe, the bundler exactly when in
development mode or the outfile is absent, then the dynamic import — the same
trace on every outcome of the import and define steps. -/
theorem importElement_trace_eq (development : Bool) (appName path : String)
    (env : ImportEnv) (reg : Registry)
    (hname : ¬(parseName path = "" ∨ parseName path = "."))
    (hfastOff : ¬(development = false ∧ (rget reg (appName ++ "-" ++ parseName path)).isSome))
    (hres : ¬(env.resolveOk = false ∧ development = false)) :
    (importElement development appName env path reg).trace
      = [Act.resolveStep, Act.statStep]
        ++ (if development = true ∨ env.outfileExists = false then [Act.bundleStep] else [])
        ++ [Act.importStep] := by
  obtain ⟨ro, rp, oe, bo, ie⟩ := env
  rcases ie with u | el
  case _ =>
    cases development <;> cases ro <;> cases oe <;> cases bo <;>
      simp_all [importElement, CustomElementRegistry.define]
  case _ =>
    rcases el with _ | c <;> cases development <;> cases ro <;> cases oe <;> cases bo <;>
      by_cases hk : appName ++ "-" ++ parseName path = "" <;>
      simp_all [importElement, CustomElementRegistry.define]

/-! ## Claim theorems -/

/-- C1: every client-scope filesystem event makes exactly one `rebuild()`
attempt on the current build context; when the attempt fails, exactly one
dispose of the failed context is followed by exactly one
`createBuildContext()`, and the new context's entry points are re-discovered
from the current state of the disk; when the attempt succeeds, the context is
kept and nothing else happens. -/
theorem clientFileChange_one_rebuild_then_recreate (rebuildOk : Bool) (d : Disk)
    (ctx : BuildContext) :
    (clientFileChange rebuildOk d ctx).2.count CAct.rebuildCtx = 1
    ∧ (rebuildOk = false →
        (clientFileChange rebuildOk d ctx).2
            = [CAct.rebuildCtx, CAct.disposeCtx, CAct.createCtx]
        ∧ (clientFileChange rebuildOk d ctx).1 = createBuildContext d
        ∧ (clientFileChange rebuildOk d ctx).1.entryPoints = entryPointsOf d)
    ∧ (rebuildOk = true →
        (clientFileChange rebuildOk d ctx).2 = [CAct.rebuildCtx]
        ∧ (clientFileChange rebuildOk d ctx).1 = ctx) := by
  cases rebuildOk <;>
    exact ⟨rfl, fun h => by simp_all [clientFileChange, createBuildContext],
      fun h => by simp_all [clientFileChange]⟩

/-- C1 witness: at a concrete failed rebuild over a concrete disk, the trace
is rebuild, dispose, create, and the fresh context reflects that disk. -/
theorem clientFileChange_one_rebuild_then_recreate_witness :
    (clientFileChange false
        { content := ⟨"/w/content.js", true⟩, fallback := ⟨"/w/fallback.js", false⟩,
          scripts := ⟨"/w/scripts.js", true⟩, lazy := ⟨"/w/lazy.js", false⟩ }
        { entryPoints := [], servePort := 6935 }).2
        = [CAct.rebuildCtx, CAct.disposeCtx, CAct.createCtx]
    ∧ (clientFileChange false
        { content := ⟨"/w/content.js", true⟩, fallback := ⟨"/w/fallback.js", false⟩,
          scripts := ⟨"/w/scripts.js", true⟩, lazy := ⟨"/w/lazy.js", false⟩ }
        { entryPoints := [], servePort := 6935 }).1
        = createBuildContext
          { content := ⟨"/w/content.js", true⟩, fallback := ⟨"/w/fallback.js", false⟩,
            scripts := ⟨"/w/scripts.js", true⟩, lazy := ⟨"/w/lazy.js", false⟩ }
    ∧ (clientFileChange false
        { content := ⟨"/w/content.js", true⟩, fallback := ⟨"/w/fallback.js", false⟩,
          scripts := ⟨"/w/scripts.js", true⟩, lazy := ⟨"/w/lazy.js", false⟩ }
        { entryPoints := [], servePort := 6935 }).1.entryPoints
        = entryPointsOf
          { content := ⟨"/w/content.js", true⟩, fallback := ⟨"/w/fallback.js", false⟩,
            scripts := ⟨"/w/scripts.js", true⟩, lazy := ⟨"/w/lazy.js", false⟩ } :=
  (clientFileChange_one_rebuild_then_recreate false
    { content := ⟨"/w/content.js", true⟩, fallback := ⟨"/w/fallback.js", false⟩,
      scripts := ⟨"/w/scripts.js", true⟩, lazy := ⟨"/w/lazy.js", false⟩ }
    { entryPoints := [], servePort := 6935 }).2.1 rfl

/-- C2: `createBuildContext` builds its entry-point list from exactly the
resolved content, fallback, scripts and lazy paths that exist; in the
scenario where content.js and scripts.js exist and fallback.js and lazy.js
are absent, the list is exactly those two paths. -/
theorem createBuildContext_entry_points :
    (∀ d : Disk,
      (createBuildContext d).entryPoints
          = ([d.content, d.fallback, d.scripts, d.lazy].filter
              (fun r => r.fileExists)).map (fun r => r.path))
    ∧ (createBuildContext
        { content := ⟨"/app/content.js", true⟩, fallback := ⟨"/app/fallback.js", false⟩,
          scripts := ⟨"/app/scripts.js", true⟩, lazy := ⟨"/app/lazy.js", false⟩ }).entryPoints
        = ["/app/content.js", "/app/scripts.js"] := by
  constructor
  · intro d
    obtain ⟨⟨cp, ce⟩, ⟨fp, fe⟩, ⟨sp, se⟩, ⟨lp, le⟩⟩ := d
    cases ce <;> cases fe <;> cases se <;> cases le <;>
      simp [createBuildContext, entryPointsOf]
  · rfl

/-- C6: on the content route, mode `ssr-only` yields no hydration bootstrap
script reference and server-rendered template markup, while mode `hydrate`
yields the hydration bootstrap script reference together with the
server-rendered template prepared for re-activation. -/
theorem contentRendered_ssrOnly_and_hydrate (prefixPath template tag : String) :
    ((contentRendered prefixPath Mode.ssrOnly template tag).hydrateSupport = none
      ∧ (contentRendered prefixPath Mode.ssrOnly template tag).markup
          = Markup.ssr "content" template)
    ∧ ((contentRendered prefixPath Mode.hydrate template tag).hydrateSupport
          = some (hydrateSupportPath prefixPath)
      ∧ (contentRendered prefixPath Mode.hydrate template tag).markup
          = Markup.hydrate "content" template) :=
  ⟨⟨rfl, rfl⟩, rfl, rfl⟩

/-- C5: the fallback route handler does not implement the section 4.3 table.
At mode `csr-only` it produces server-rendered template markup through the
ssr branch (because the source tests `mode !== "ssr-only"` first), where the
table requires the raw client-side custom-element tag; at mode `ssr-only` it
falls through to the hydrate branch instead of the ssr branch. -/
theorem fallbackRendered_diverges_from_table :
    fallbackRendered "/" Mode.csrOnly "TPL" "TAG"
        = { hydrateSupport := none, markup := Markup.ssr "fallback" "TPL" }
    ∧ specTableMarkup "fallback" Mode.csrOnly "TPL" "TAG" = Markup.csr "fallback" "TAG"
    ∧ (fallbackRendered "/" Mode.csrOnly "TPL" "TAG").markup
        ≠ specTableMarkup "fallback" Mode.csrOnly "TPL" "TAG"
    ∧ (fallbackRendered "/" Mode.ssrOnly "TPL" "TAG").markup
        = Markup.hydrate "fallback" "TPL"
    ∧ (fallbackRendered "/" Mode.ssrOnly "TPL" "TAG").markup
        ≠ specTableMarkup "fallback" Mode.ssrOnly "TPL" "TAG" := by
  refine ⟨rfl, rfl, by decide, rfl, by decide⟩

/-- C7: defining a name already present in the registry throws an error
naming the conflicting name in non-development mode, and succeeds in
development mode, replacing the entry. -/
theorem define_duplicate_mode_split (reg : Registry) (name : String)
    (e0 : RegEntry) (c1 : Ctor) (hname : name ≠ "")
    (hdup : rget reg name = some e0) :
    CustomElementRegistry.define false reg name (some c1)
        = Except.error (Err.defineDuplicate name)
    ∧ CustomElementRegistry.define true reg name (some c1)
        = Except.ok (rset reg name { ctor := c1, observedAttributes := c1.observedAttributes })
    ∧ rget (rset reg name { ctor := c1, observedAttributes := c1.observedAttributes }) name
        = some { ctor := c1, observedAttributes := c1.observedAttributes } := by
  refine ⟨?_, ?_, rget_rset_self reg name _⟩
  · simp [CustomElementRegistry.define, hname, hdup]
  · simp [CustomElementRegistry.define, hname]

/-- C7 witness: a concrete duplicate registration errors in production and
replaces the entry in development. -/
theorem define_duplicate_mode_split_witness :
    CustomElementRegistry.define false [("app-content", ⟨⟨7, []⟩, []⟩)] "app-content"
        (some ⟨8, ["x"]⟩) = Except.error (Err.defineDuplicate "app-content")
    ∧ CustomElementRegistry.define true [("app-content", ⟨⟨7, []⟩, []⟩)] "app-content"
        (some ⟨8, ["x"]⟩)
        = Except.ok (rset [("app-content", ⟨⟨7, []⟩, []⟩)] "app-content"
            { ctor := ⟨8, ["x"]⟩, observedAttributes := ["x"] })
    ∧ rget (rset [("app-content", ⟨⟨7, []⟩, []⟩)] "app-content"
            { ctor := ⟨8, ["x"]⟩, observedAttributes := ["x"] }) "app-content"
        = some { ctor := ⟨8, ["x"]⟩, observedAttributes := ["x"] } :=
  define_duplicate_mode_split [("app-content", ⟨⟨7, []⟩, []⟩)] "app-content"
    ⟨⟨7, []⟩, []⟩ ⟨8, ["x"]⟩ (by decide) (by decide)

/-- C10: `define` called with a falsy name or a falsy constructor returns
without raising and without modifying the registry, in both development and
non-development mode, so any existing registration is preserved unchanged. -/
theorem define_falsy_noop (development : Bool) (reg : Registry) (name : String)
    (ctor : Option Ctor) (h : name = "" ∨ ctor = none) :
    CustomElementRegistry.define development reg name ctor = Except.ok reg := by
  rcases ctor with _ | c
  · rfl
  · rcases h with h | h
    · simp [CustomElementRegistry.define, h]
    · exact absurd h (by simp)

/-- C10 witness: defining with an absent constructor over a populated
registry in production mode leaves the registry unchanged and raises
nothing. -/
theorem define_falsy_noop_witness :
    CustomElementRegistry.define false [("app-content", ⟨⟨7, []⟩, []⟩)] "app-content" none
        = Except.ok [("app-content", ⟨⟨7, []⟩, []⟩)] :=
  define_falsy_noop false [("app-content", ⟨⟨7, []⟩, []⟩)] "app-content" none (Or.inr rfl)

/-- C8: `restart()` opens the new instance's construction and the old
instance's close together, lets them resolve in either order, and only then
— after both have completed — issues `listen` on the configured port; and a
server-scope event's successful `reload()`+`restart()` sequence contains
exactly one reload call and exactly one listen call and leaves the server
bound to that same configured port. -/
theorem restart_concurrency_and_port (setupFirst : Bool) (port : Nat) :
    (∃ mid, restartTrace setupFirst port
          = [REv.setupStart, REv.closeStart] ++ mid ++ [REv.listenCall port]
        ∧ mid.Perm [REv.setupDone, REv.closeDone])
    ∧ (∀ st : ServerState,
        (serverFileChange true setupFirst port st).1.boundPort = some port
        ∧ (serverFileChange true setupFirst port st).2.count REv.reloadCall = 1
        ∧ ((serverFileChange true setupFirst port st).2.countP
            (fun e => match e with | REv.listenCall _ => true | _ => false)) = 1) := by
  cases setupFirst
  · exact ⟨⟨[REv.closeDone, REv.setupDone], rfl,
      List.Perm.swap REv.setupDone REv.closeDone []⟩,
      fun st => ⟨rfl, rfl, rfl⟩⟩
  · exact ⟨⟨[REv.setupDone, REv.closeDone], rfl, List.Perm.refl _⟩,
      fun st => ⟨rfl, rfl, rfl⟩⟩

/-- C3 counterexample: the production fast path returns `undefined`
(`return;` in the source), not the already-registered constructor — at a
concrete registry holding the key, the call's returned value is `none` and
differs from the registered constructor. -/
theorem importElement_fast_path_returns_no_ctor :
    CustomElementRegistry.get [("app-content", ⟨⟨7, []⟩, []⟩)] "app-content" = some ⟨7, []⟩
    ∧ (importElement false "app"
        ⟨true, "/src/content.js", true, true, Except.ok (some ⟨7, []⟩)⟩
        "content.js" [("app-content", ⟨⟨7, []⟩, []⟩)]).result = Except.ok none
    ∧ (importElement false "app"
        ⟨true, "/src/content.js", true, true, Except.ok (some ⟨7, []⟩)⟩
        "content.js" [("app-content", ⟨⟨7, []⟩, []⟩)]).result
        ≠ Except.ok (some (⟨7, []⟩ : Ctor)) := by
  refine ⟨rfl, rfl, ?_⟩
  decide

/-- C3 (amended): in non-development mode, when the derived registry key is
already registered, `importElement` performs no external work at all (empty
trace, hence no bundling and no import), leaves the registry — and therefore
the registered constructor — unchanged, and returns without a value. -/
theorem importElement_prod_fast_path (appName path : String) (env : ImportEnv)
    (reg : Registry)
    (hname : ¬(parseName path = "" ∨ parseName path = "."))
    (hreg : (rget reg (appName ++ "-" ++ parseName path)).isSome = true) :
    importElement false appName env path reg
        = { registry := reg, trace := [], result := Except.ok none } := by
  simp [importElement, hname, hreg]

/-- C3 witness: the fast path evaluated at a concrete populated registry. -/
theorem importElement_prod_fast_path_witness :
    importElement false "app"
        ⟨true, "/src/content.js", true, true, Except.ok (some ⟨7, []⟩)⟩
        "content.js" [("app-content", ⟨⟨7, []⟩, []⟩)]
      = { registry := [("app-content", ⟨⟨7, []⟩, []⟩)], trace := [],
          result := Except.ok none } :=
  importElement_prod_fast_path "app" "content.js"
    ⟨true, "/src/content.js", true, true, Except.ok (some ⟨7, []⟩)⟩
    [("app-content", ⟨⟨7, []⟩, []⟩)] (by decide) (by decide)

/-- C4 counterexample: in non-development mode a bundling failure does not
propagate out of `importElement` — the catch around `esbuild.build` swallows
it in both modes. At a concrete production call whose bundling step runs and
fails, the call's outcome is the import step's module-not-found error, not
the bundling error. -/
theorem importElement_prod_bundle_error_swallowed :
    (importElement false "app" ⟨true, "/src/content.js", false, false, Except.ok (some ⟨3, []⟩)⟩
        "content.js" []).trace.contains Act.bundleStep = true
    ∧ (importElement false "app" ⟨true, "/src/content.js", false, false, Except.ok (some ⟨3, []⟩)⟩
        "content.js" []).result = Except.error (Err.moduleNotFound "dist/server/content.js")
    ∧ (importElement false "app" ⟨true, "/src/content.js", false, false, Except.ok (some ⟨3, []⟩)⟩
        "content.js" []).result ≠ Except.error Err.bundleFailed := by
  refine ⟨rfl, rfl, ?_⟩
  decide

/-- C4 (amended): with a usable name, a development-mode call never raises —
bundling, import, resolve and define failures are all logged and swallowed;
in non-development mode an import-step failure propagates out of the call,
and a bundling-step failure, though itself swallowed, still fails the call
because the import of the never-produced bundle raises a module-not-found
error that propagates. -/
theorem importElement_failure_fatality (appName path : String) (env : ImportEnv)
    (reg : Registry) (hname : ¬(parseName path = "" ∨ parseName path = ".")) :
    (importElement true appName env path reg).result = Except.ok none
    ∧ (rget reg (appName ++ "-" ++ parseName path) = none →
        env.resolveOk = true →
        ((env.outfileExists = true ∨ env.bundleOk = true) →
            env.importEval = Except.error () →
            (importElement false appName env path reg).result
              = Except.error Err.importFailed)
        ∧ (env.outfileExists = false → env.bundleOk = false →
            (importElement false appName env path reg).result
              = Except.error (Err.moduleNotFound
                  ("dist/server/" ++ parseName path ++ ".js")))) := by
  obtain ⟨ro, rp, oe, bo, ie⟩ := env
  constructor
  · rcases ie with u | el
    · cases ro <;> cases oe <;> cases bo <;>
        simp_all [importElement, CustomElementRegistry.define]
    · rcases el with _ | c <;> cases ro <;> cases oe <;> cases bo <;>
        by_cases hk : appName ++ "-" ++ parseName path = "" <;>
        simp_all [importElement, CustomElementRegistry.define]
  · intro hfast hres
    subst hres
    constructor
    · intro hpresent hie
      subst hie
      rcases hpresent with h | h
      · subst h
        cases bo <;> simp_all [importElement, CustomElementRegistry.define]
      · subst h
        cases oe <;> simp_all [importElement, CustomElementRegistry.define]
    · intro hoe hbo
      subst hoe
      subst hbo
      simp_all [importElement, CustomElementRegistry.define]

/-- C4 witness: concrete runs — a development call whose bundling step and
whose module-loading step both fail completes without raising; a production
failure of the module-loading step propagates; a production bundling failure
surfaces as the module-not-found error of the module-loading step. -/
theorem importElement_failure_fatality_witness :
    (importElement true "app" ⟨true, "/src/content.js", false, false, Except.error ()⟩
        "content.js" []).result = Except.ok none
    ∧ (importElement false "app" ⟨true, "/src/content.js", true, true, Except.error ()⟩
        "content.js" []).result = Except.error Err.importFailed
    ∧ (importElement false "app" ⟨true, "/src/content.js", false, false, Except.ok (some ⟨3, []⟩)⟩
        "content.js" []).result
        = Except.error (Err.moduleNotFound ("dist/server/" ++ parseName "content.js" ++ ".js")) :=
  ⟨(importElement_failure_fatality "app" "content.js"
      ⟨true, "/src/content.js", false, false, Except.error ()⟩ [] (by decide)).1,
   ((importElement_failure_fatality "app" "content.js"
      ⟨true, "/src/content.js", true, true, Except.error ()⟩ [] (by decide)).2
      rfl rfl).1 (Or.inl rfl) rfl,
   ((importElement_failure_fatality "app" "content.js"
      ⟨true, "/src/content.js", false, false, Except.ok (some ⟨3, []⟩)⟩ [] (by decide)).2
      rfl rfl).2 rfl rfl⟩

/-- C9 counterexample: the claimed equivalence — bundler invoked exactly when
the outfile is absent or the mode is development — fails on the production
fast path: with the key already registered and the outfile absent, no
bundling happens at all. -/
theorem importElement_fast_path_skips_bundler :
    ¬((Act.bundleStep ∈ (importElement false "app"
          ⟨true, "/src/content.js", false, true, Except.ok (some ⟨3, []⟩)⟩
          "content.js" [("app-content", ⟨⟨7, []⟩, []⟩)]).trace)
        ↔ (false = true
            ∨ (⟨true, "/src/content.js", false, true, Except.ok (some ⟨3, []⟩)⟩ : ImportEnv).outfileExists
                = false)) := by
  decide

/-- C9 (amended): on every call that passes the name check, is not
short-circuited by the non-development already-registered fast path, and (in
non-development mode) resolves its source path, the external bundler is
invoked if and only if the process is in development mode or the target SSR
bundle file is absent. -/
theorem importElement_bundler_invocation (development : Bool) (appName path : String)
    (env : ImportEnv) (reg : Registry)
    (hname : ¬(parseName path = "" ∨ parseName path = "."))
    (hfast : development = false → rget reg (appName ++ "-" ++ parseName path) = none)
    (hres : development = false → env.resolveOk = true) :
    (Act.bundleStep ∈ (importElement development appName env path reg).trace)
      ↔ (development = true ∨ env.outfileExists = false) := by
  rw [importElement_trace_eq development appName path env reg hname]
  · by_cases h : development = true ∨ env.outfileExists = false <;> simp [h]
  · cases development
    · simp [hfast rfl]
    · simp
  · cases development
    · simp [hres rfl]
    · simp

/-- C9 witness: in production with the key unregistered and the outfile
absent, the bundler is invoked. -/
theorem importElement_bundler_invocation_witness :
    (Act.bundleStep ∈ (importElement false "app"
        ⟨true, "/src/content.js", false, true, Except.ok (some ⟨3, []⟩)⟩
        "content.js" []).trace)
      ↔ (false = true
          ∨ (⟨true, "/src/content.js", false, true, Except.ok (some ⟨3, []⟩)⟩ : ImportEnv).outfileExists
              = false) :=
  importElement_bundler_invocation false "app" "content.js"
    ⟨true, "/src/content.js", false, true, Except.ok (some ⟨3, []⟩)⟩ []
    (by decide) (fun _ => rfl) (fun _ => rfl)
